import Mathlib

/-!
Shallow embedding of the desileetcode authentication backend:
`src/backend/src/controllers/auth.controller.js` (register, login, logout,
check) and the gating middleware `authMiddleware` (src/unnamed/part_002),
together with models of the external collaborators they call: the Prisma
credential store (a list of user records), bcryptjs (an ideal one-way
hasher), and jsonwebtoken (a signed payload with an expiry, verified
against a process-wide secret).
-/

namespace DesiAuth

/-- The `UserRole` enum from the Prisma schema (`UserRole.USER` is the role
register always assigns). -/
inductive UserRole where
  | USER
  | ADMIN
deriving DecidableEq, Repr

/-- Model of a bcrypt hash value: an ideal one-way hash remembering the
plaintext it was computed from and the cost factor.  `bcrypt.compare`
succeeds exactly when the candidate plaintext matches. -/
structure BHash where
  plain : String
  cost : Nat
deriving DecidableEq, Repr

/-- `bcrypt.hash(plain, cost)` from bcryptjs. -/
def bcryptHash (plain : String) (cost : Nat) : BHash :=
  { plain := plain, cost := cost }

/-- `bcrypt.compare(candidate, stored)` from bcryptjs: true iff the
candidate plaintext is the one the stored hash was computed from. -/
def bcryptCompare (candidate : String) (stored : BHash) : Bool :=
  candidate == stored.plain

/-- A persisted user record in the credential store (the Prisma `user`
model): id, unique email, bcrypt-hashed password, name, role, optional
image. -/
structure User where
  id : Nat
  email : String
  password : BHash
  name : String
  role : UserRole
  image : Option String
deriving DecidableEq, Repr

/-- The outward-facing view of a user: exactly the fields the controllers
put in success payloads and the middleware selects from the store —
id, email, name, role, image.  The hashed password is structurally
absent. -/
structure PublicUser where
  id : Nat
  email : String
  name : String
  role : UserRole
  image : Option String
deriving DecidableEq, Repr

/-- The projection applied by the response shaping in register/login and by
the `select: {id, image, name, email, role}` clause of the middleware's
store query. -/
def projectUser (u : User) : PublicUser :=
  { id := u.id, email := u.email, name := u.name, role := u.role,
    image := u.image }

/-- The credential store: Prisma's user table, one record per identity. -/
abbrev Db := List User

/-- `db.user.findUnique({where: {email}})`. -/
def findUniqueByEmail (db : Db) (email : String) : Option User :=
  db.find? (fun u => u.email == email)

/-- `db.user.findUnique({where: {id}})` without projection. -/
def findUniqueById (db : Db) (id : Nat) : Option User :=
  db.find? (fun u => u.id == id)

/-- The middleware's `db.user.findUnique({where: {id}, select: {id, image,
name, email, role}})`: the projection is part of the query, so the result
type already lacks the password field. -/
def findUniqueByIdSelect (db : Db) (id : Nat) : Option PublicUser :=
  (findUniqueById db id).map projectUser

/-- `jwt.sign({id}, secret, {expiresIn: "7d"})` output: the payload id, the
expiry instant, and the secret the signature binds it to.  A tampered or
foreign token is a `SignedToken` whose `sig` differs from the verifying
secret (or whose fields were altered, which re-signing cannot hide). -/
structure SignedToken where
  payloadId : Nat
  exp : Nat
  sig : String
deriving DecidableEq, Repr

/-- The decoded JWT payload: `{id}`. -/
structure JwtPayload where
  id : Nat
deriving DecidableEq, Repr

/-- Milliseconds in 7 days: the cookie max-age `1000*60*60*24*7` and the
token lifetime `expiresIn: "7d"`. -/
def sevenDaysMs : Nat := 1000 * 60 * 60 * 24 * 7

/-- `jwt.sign({id: id}, secret, {expiresIn: "7d"})` at instant `now`. -/
def jwtSign (id : Nat) (secret : String) (now : Nat) : SignedToken :=
  { payloadId := id, exp := now + sevenDaysMs, sig := secret }

/-- `jwt.verify(token, secret)` at instant `now`: succeeds with the decoded
payload iff the signature matches the secret and the token has not
expired; any failure (tamper, wrong secret, expiry) is `none`, the
throw caught by the middleware's inner try/catch. -/
def jwtVerify (t : SignedToken) (secret : String) (now : Nat) :
    Option JwtPayload :=
  if t.sig == secret && now < t.exp then some { id := t.payloadId } else none

/-- Process environment: `process.env.JWT_SECRET` and
`process.env.NODE_ENV`. -/
structure Env where
  jwtSecret : String
  nodeEnv : String
deriving DecidableEq, Repr

/-- A `res.cookie("jwt", token, {...})` call: name, token value, and the
attribute object `{httpOnly, sameSite, secure, maxAge}`. -/
structure SetCookie where
  name : String
  value : SignedToken
  httpOnly : Bool
  sameSite : String
  secure : Bool
  maxAge : Nat
deriving DecidableEq, Repr

/-- A `res.clearCookie("jwt", {...})` call: name and the attribute object
`{httpOnly, sameSite, secure}`. -/
structure ClearCookie where
  name : String
  httpOnly : Bool
  sameSite : String
  secure : Bool
deriving DecidableEq, Repr

/-- The JSON bodies the handlers produce, mirroring the object literals in
the source: `{error}`, `{message}`, `{success, message}`, and
`{success, message, user}`. -/
inductive Body where
  | err (error : String)
  | msg (message : String)
  | successMsg (success : Bool) (message : String)
  | successUser (success : Bool) (message : String) (user : PublicUser)
deriving DecidableEq, Repr

/-- The JSON keys a body serializes to, including the keys of the nested
`user` object. -/
def Body.allKeys : Body → List String
  | .err _ => ["error"]
  | .msg _ => ["message"]
  | .successMsg _ _ => ["success", "message"]
  | .successUser _ _ _ =>
      ["success", "message", "user", "id", "email", "name", "role", "image"]

/-- An HTTP response as the handlers build it: status, JSON body, and the
cookie mutations performed on `res`. -/
structure Response where
  status : Nat
  body : Body
  setCookie : Option SetCookie := none
  clearCookie : Option ClearCookie := none
deriving DecidableEq, Repr

/-- Request body of POST /auth/register: the three fields the controller
destructures (`{email, password, name}`); anything else in the request
body is never read. -/
structure RegisterBody where
  email : String
  password : String
  name : String
deriving DecidableEq, Repr

/-- Request body of POST /auth/login: `{email, password}`. -/
structure LoginBody where
  email : String
  password : String
deriving DecidableEq, Repr

/-- The `register` controller.  `newId` is the opaque id Prisma generates
for the created record; `now` the instant of the request.  Returns the
response together with the store after the handler ran. -/
def register (env : Env) (db : Db) (body : RegisterBody) (newId : Nat)
    (now : Nat) : Response × Db :=
  match findUniqueByEmail db body.email with
  | some _ =>
      ({ status := 400, body := .err "User already exists" }, db)
  | none =>
      let hashedPassword := bcryptHash body.password 12
      let newUser : User :=
        { id := newId, email := body.email, password := hashedPassword,
          name := body.name, role := .USER, image := none }
      let db' := db ++ [newUser]
      let token := jwtSign newUser.id env.jwtSecret now
      ({ status := 201,
         body := .successUser true "User created successfully"
           (projectUser newUser),
         setCookie := some
           { name := "jwt", value := token, httpOnly := true,
             sameSite := "strict",
             secure := env.nodeEnv != "development",
             maxAge := sevenDaysMs } },
       db')

/-- The `login` controller.  Returns the response together with the store
after the handler ran (login performs no create, so every branch returns
the store unchanged). -/
def login (env : Env) (db : Db) (body : LoginBody) (now : Nat) :
    Response × Db :=
  match findUniqueByEmail db body.email with
  | none =>
      ({ status := 401, body := .err "User not found" }, db)
  | some user =>
      if bcryptCompare body.password user.password then
        let token := jwtSign user.id env.jwtSecret now
        ({ status := 200,
           body := .successUser true "User logged in successfully"
             (projectUser user),
           setCookie := some
             { name := "jwt", value := token, httpOnly := true,
               sameSite := "strict",
               secure := env.nodeEnv != "development",
               maxAge := sevenDaysMs } },
         db)
      else
        ({ status := 401, body := .err "Invalid credentials" }, db)

/-- The `logout` controller.  It receives the request (and hence whatever
session cookie it carries) but never reads it: it clears the cookie and
answers 200 unconditionally. -/
def logout (env : Env) (cookieJwt : Option SignedToken) : Response :=
  let _ := cookieJwt
  { status := 200,
    body := .successMsg true "User logged out successfully",
    clearCookie := some
      { name := "jwt", httpOnly := true, sameSite := "strict",
        secure := env.nodeEnv != "development" } }

/-- The `check` controller: echoes the identity the gating middleware
attached to the request. -/
def check (reqUser : PublicUser) : Response :=
  { status := 200,
    body := .successUser true "user auth successfull" reqUser }

/-- Outcome of the gating middleware: either it rejected the request with a
response (the wrapped operation never runs), or it attached the resolved
identity and called `next()`. -/
inductive MwResult where
  | rejected (res : Response)
  | proceed (user : PublicUser)
deriving DecidableEq, Repr

/-- The `authMiddleware` gate: extract `req.cookies.jwt`, verify it (the
inner try/catch turning any `jwt.verify` throw into the 401 branch),
look up the identity with the projecting query, and either reject or
attach the identity and proceed. -/
def authMiddleware (env : Env) (db : Db) (now : Nat)
    (cookieJwt : Option SignedToken) : MwResult :=
  match cookieJwt with
  | none =>
      .rejected { status := 401,
                  body := .msg "Unauthorised - No token provided" }
  | some token =>
      match jwtVerify token env.jwtSecret now with
      | none =>
          .rejected { status := 401,
                      body := .msg "Unauthorised - Invalid Token" }
      | some decoded =>
          match findUniqueByIdSelect db decoded.id with
          | none =>
              .rejected { status := 404, body := .msg "User not found" }
          | some user => .proceed user

/-- Sample register body. -/
def regBodyA : RegisterBody :=
  { email := "a@x.com", password := "pw1", name := "Ann" }

/-- Sample second register body, colliding email. -/
def regBodyA2 : RegisterBody :=
  { email := "a@x.com", password := "pw2", name := "Ann2" }

/-- Sample environment used by witnesses. -/
def envA : Env := { jwtSecret := "s3cret", nodeEnv := "production" }

/-- Sample stored user used by witnesses. -/
def userA : User :=
  { id := 1, email := "a@x.com", password := bcryptHash "pw1" 12,
    name := "Ann", role := .USER, image := none }

/-- Sample one-user store used by witnesses. -/
def dbA : Db := [userA]

/-! ## Store lemmas -/

/-- Appending a fresh record makes it findable by its email when the email
was previously absent. -/
theorem findUniqueByEmail_append_self (db : Db) (u : User) (e : String)
    (h : findUniqueByEmail db e = none) (he : u.email = e) :
    findUniqueByEmail (db ++ [u]) e = some u := by
  unfold findUniqueByEmail at *
  rw [List.find?_append, h]
  simp [he]

/-- Appending a record with a fresh id makes it findable by that id. -/
theorem findUniqueById_append_self (db : Db) (u : User)
    (h : ∀ v ∈ db, v.id ≠ u.id) :
    findUniqueById (db ++ [u]) u.id = some u := by
  unfold findUniqueById
  rw [List.find?_append]
  have hnone : db.find? (fun v => v.id == u.id) = none := by
    rw [List.find?_eq_none]
    intro v hv
    simp [h v hv]
  rw [hnone]
  simp

/-- A fresh id is found by nobody in the store. -/
theorem findUniqueById_none_of_fresh (db : Db) (id : Nat)
    (h : ∀ v ∈ db, v.id ≠ id) :
    findUniqueById db id = none := by
  unfold findUniqueById
  rw [List.find?_eq_none]
  intro v hv
  simp [h v hv]

/-- Register on a colliding email answers 400 and leaves the store
untouched. -/
theorem register_conflict (env : Env) (db : Db) (b : RegisterBody)
    (newId now : Nat) (u : User)
    (h : findUniqueByEmail db b.email = some u) :
    register env db b newId now =
      ({ status := 400, body := .err "User already exists" }, db) := by
  simp [register, h]

/-! ## Claim theorems -/

/-- C1: the gating middleware runs its checks in strict order and
short-circuits at the first failure: no cookie token gives 401
"Unauthorised - No token provided"; a token failing verification gives 401
"Unauthorised - Invalid Token"; a verified token whose payload id matches
no stored identity gives 404 "User not found"; only when all checks pass
does it attach the projected identity and proceed to the wrapped
operation.  In particular a validly signed, unexpired token whose identity
was deleted (absent from the store) yields 404, not 401. -/
theorem authMiddleware_gate_order :
    (∀ env db now,
      authMiddleware env db now none =
        .rejected { status := 401,
                    body := .msg "Unauthorised - No token provided" }) ∧
    (∀ env db now t, jwtVerify t env.jwtSecret now = none →
      authMiddleware env db now (some t) =
        .rejected { status := 401,
                    body := .msg "Unauthorised - Invalid Token" }) ∧
    (∀ env db now t d, jwtVerify t env.jwtSecret now = some d →
      findUniqueById db d.id = none →
      authMiddleware env db now (some t) =
        .rejected { status := 404, body := .msg "User not found" }) ∧
    (∀ env db now t d u, jwtVerify t env.jwtSecret now = some d →
      findUniqueById db d.id = some u →
      authMiddleware env db now (some t) = .proceed (projectUser u)) ∧
    (∀ env db now issuedAt id, (∀ v ∈ db, v.id ≠ id) →
      now < issuedAt + sevenDaysMs →
      authMiddleware env db now (some (jwtSign id env.jwtSecret issuedAt)) =
        .rejected { status := 404, body := .msg "User not found" }) := by
  refine ⟨?_, ?_, ?_, ?_, ?_⟩
  · intro env db now
    rfl
  · intro env db now t hv
    simp [authMiddleware, hv]
  · intro env db now t d hv hf
    simp [authMiddleware, hv, findUniqueByIdSelect, hf]
  · intro env db now t d u hv hf
    simp [authMiddleware, hv, findUniqueByIdSelect, hf]
  · intro env db now issuedAt id hfresh hexp
    have hv : jwtVerify (jwtSign id env.jwtSecret issuedAt) env.jwtSecret now
        = some { id := id } := by
      simp [jwtVerify, jwtSign, hexp]
    have hf := findUniqueById_none_of_fresh db id hfresh
    simp [authMiddleware, hv, findUniqueByIdSelect, hf]

/-- C1 witness: a validly signed, unexpired token for id 2 against a store
holding only id 1 is rejected 404 "User not found". -/
theorem authMiddleware_gate_order_witness :
    authMiddleware envA dbA 0 (some (jwtSign 2 envA.jwtSecret 0)) =
      .rejected { status := 404, body := .msg "User not found" } :=
  authMiddleware_gate_order.2.2.2.2 envA dbA 0 0 2 (by decide) (by decide)

/-- C2: token verification failure is an expected, handled branch of the
middleware: whenever `jwt.verify` fails (tampered, wrong secret, expired)
the result is exactly the 401 "Unauthorised - Invalid Token" response —
never an uncaught throw reaching the generic 500 handler.  In particular a
token minted with `expiresIn: "7d"` and verified at or after expiry is
rejected 401 regardless of the store's contents. -/
theorem authMiddleware_verify_failure_handled :
    (∀ env db now t, jwtVerify t env.jwtSecret now = none →
      authMiddleware env db now (some t) =
        .rejected { status := 401,
                    body := .msg "Unauthorised - Invalid Token" }) ∧
    (∀ env db now id issuedAt, issuedAt + sevenDaysMs ≤ now →
      authMiddleware env db now (some (jwtSign id env.jwtSecret issuedAt)) =
        .rejected { status := 401,
                    body := .msg "Unauthorised - Invalid Token" }) := by
  constructor
  · intro env db now t hv
    simp [authMiddleware, hv]
  · intro env db now id issuedAt hexp
    have hv : jwtVerify (jwtSign id env.jwtSecret issuedAt) env.jwtSecret now
        = none := by
      simp [jwtVerify, jwtSign]
      omega
    simp [authMiddleware, hv]

/-- C2 witness: a token for the still-existing user id 1, verified exactly
7 days after issuance, is rejected 401 "Unauthorised - Invalid Token". -/
theorem authMiddleware_verify_failure_handled_witness :
    authMiddleware envA dbA sevenDaysMs
        (some (jwtSign 1 envA.jwtSecret 0)) =
      .rejected { status := 401,
                  body := .msg "Unauthorised - Invalid Token" } :=
  authMiddleware_verify_failure_handled.2 envA dbA sevenDaysMs 1 0
    (by decide)

/-- C3: registering twice with the same email: the first registration
(email absent from the store) answers 201 with the success payload and
creates the record; the second, with a colliding email, answers 400
`{error: "User already exists"}` and leaves the store exactly as the
first registration left it — no second record. -/
theorem register_twice_conflict (env env2 : Env) (db : Db)
    (b b2 : RegisterBody) (newId newId2 now now2 : Nat)
    (h : findUniqueByEmail db b.email = none) (he : b2.email = b.email) :
    (register env db b newId now).fst.status = 201 ∧
    (register env db b newId now).fst.body =
      .successUser true "User created successfully"
        { id := newId, email := b.email, name := b.name, role := .USER,
          image := none } ∧
    (register env2 (register env db b newId now).snd b2 newId2 now2).fst =
      { status := 400, body := .err "User already exists" } ∧
    (register env2 (register env db b newId now).snd b2 newId2 now2).snd =
      (register env db b newId now).snd := by
  have hsnd : (register env db b newId now).snd =
      db ++ [{ id := newId, email := b.email,
               password := bcryptHash b.password 12, name := b.name,
               role := .USER, image := none }] := by
    simp [register, h]
  have hfind2 : findUniqueByEmail (register env db b newId now).snd b2.email
      = some { id := newId, email := b.email,
               password := bcryptHash b.password 12, name := b.name,
               role := .USER, image := none } := by
    rw [hsnd, he]
    exact findUniqueByEmail_append_self db _ b.email h rfl
  refine ⟨?_, ?_, ?_, ?_⟩
  · simp [register, h]
  · simp [register, h, projectUser]
  · rw [register_conflict env2 _ b2 newId2 now2 _ hfind2]
  · rw [register_conflict env2 _ b2 newId2 now2 _ hfind2]

/-- C3 witness: against an empty store, registering "a@x.com" succeeds
with 201 and re-registering the same email fails 400 without a second
record. -/
theorem register_twice_conflict_witness :
    (register envA [] regBodyA 1 0).fst.status = 201 ∧
    (register envA [] regBodyA 1 0).fst.body =
      .successUser true "User created successfully"
        { id := 1, email := regBodyA.email, name := regBodyA.name,
          role := .USER, image := none } ∧
    (register envA (register envA [] regBodyA 1 0).snd regBodyA2 2 5).fst =
      { status := 400, body := .err "User already exists" } ∧
    (register envA (register envA [] regBodyA 1 0).snd regBodyA2 2 5).snd =
      (register envA [] regBodyA 1 0).snd :=
  register_twice_conflict envA envA [] regBodyA regBodyA2 1 2 0 5 rfl rfl

/-- C4: login distinguishes its two credential failures: an email absent
from the store answers 401 `{error: "User not found"}`; an email present
but with a non-matching plaintext answers 401
`{error: "Invalid credentials"}`; the two messages differ. -/
theorem login_distinguishes_failures :
    (∀ env db b now, findUniqueByEmail db b.email = none →
      (login env db b now).fst =
        { status := 401, body := .err "User not found" }) ∧
    (∀ env db b now u, findUniqueByEmail db b.email = some u →
      bcryptCompare b.password u.password = false →
      (login env db b now).fst =
        { status := 401, body := .err "Invalid credentials" }) ∧
    "User not found" ≠ "Invalid credentials" := by
  refine ⟨?_, ?_, by decide⟩
  · intro env db b now h
    simp [login, h]
  · intro env db b now u h hc
    simp [login, h, hc]

/-- C4 witness: logging in with the registered email "a@x.com" but the
wrong plaintext "wrong" yields 401 `{error: "Invalid credentials"}`. -/
theorem login_distinguishes_failures_witness :
    (login envA dbA { email := "a@x.com", password := "wrong" } 0).fst =
      { status := 401, body := .err "Invalid credentials" } :=
  login_distinguishes_failures.2.1 envA dbA
    { email := "a@x.com", password := "wrong" } 0 userA rfl rfl

/-- C5: round-trip — the session token register mints is the one set in
the cookie; verified before expiry with the same secret it decodes to a
payload carrying exactly the created identity's id, and the gating
middleware run against the post-registration store resolves it to that
same identity (projected). -/
theorem register_token_roundtrip (env : Env) (db : Db) (b : RegisterBody)
    (newId now now' : Nat)
    (h : findUniqueByEmail db b.email = none)
    (hid : ∀ v ∈ db, v.id ≠ newId)
    (ht : now' < now + sevenDaysMs) :
    ((register env db b newId now).fst.setCookie).map SetCookie.value =
      some (jwtSign newId env.jwtSecret now) ∧
    jwtVerify (jwtSign newId env.jwtSecret now) env.jwtSecret now' =
      some { id := newId } ∧
    authMiddleware env (register env db b newId now).snd now'
        (some (jwtSign newId env.jwtSecret now)) =
      .proceed { id := newId, email := b.email, name := b.name,
                 role := .USER, image := none } := by
  have hv : jwtVerify (jwtSign newId env.jwtSecret now) env.jwtSecret now'
      = some { id := newId } := by
    simp [jwtVerify, jwtSign, ht]
  refine ⟨?_, hv, ?_⟩
  · simp [register, h]
  · have hsnd : (register env db b newId now).snd =
        db ++ [{ id := newId, email := b.email,
                 password := bcryptHash b.password 12, name := b.name,
                 role := .USER, image := none }] := by
      simp [register, h]
    have hfind : findUniqueById (register env db b newId now).snd newId =
        some { id := newId, email := b.email,
               password := bcryptHash b.password 12, name := b.name,
               role := .USER, image := none } := by
      rw [hsnd]
      exact findUniqueById_append_self db _ hid
    simp [authMiddleware, hv, findUniqueByIdSelect, hfind, projectUser]

/-- C5 witness: registering "a@x.com" against an empty store mints a token
that, verified immediately, decodes to id 1 and resolves through the
middleware to the created identity. -/
theorem register_token_roundtrip_witness :
    ((register envA [] regBodyA 1 0).fst.setCookie).map SetCookie.value =
      some (jwtSign 1 envA.jwtSecret 0) ∧
    jwtVerify (jwtSign 1 envA.jwtSecret 0) envA.jwtSecret 0 =
      some { id := 1 } ∧
    authMiddleware envA (register envA [] regBodyA 1 0).snd 0
        (some (jwtSign 1 envA.jwtSecret 0)) =
      .proceed { id := 1, email := regBodyA.email, name := regBodyA.name,
                 role := .USER, image := none } :=
  register_token_roundtrip envA [] regBodyA 1 0 0 rfl (by decide)
    (by decide)

/-- C6: no outward-facing response of register, login, or check ever
serializes the hashed secret: the key "password" appears nowhere among
the JSON keys of any response body (success payloads carry only
{id, email, name, role, image} inside `user`); the middleware's store
lookup is the projecting query `findUniqueByIdSelect`, whose result type
already excludes the hash, so the identity it attaches on success is the
projection of a stored record. -/
theorem no_hashed_secret_in_responses :
    (∀ env db b newId now,
      "password" ∉ ((register env db b newId now).fst.body).allKeys) ∧
    (∀ env db b now,
      "password" ∉ ((login env db b now).fst.body).allKeys) ∧
    (∀ u, "password" ∉ (check u).body.allKeys) ∧
    (∀ db id, findUniqueByIdSelect db id =
      (findUniqueById db id).map projectUser) ∧
    (∀ env db now c u, authMiddleware env db now c = .proceed u →
      ∃ v, v ∈ db ∧ u = projectUser v) := by
  refine ⟨?_, ?_, ?_, fun _ _ => rfl, ?_⟩
  · intro env db b newId now
    cases hfind : findUniqueByEmail db b.email <;>
      simp [register, hfind, Body.allKeys]
  · intro env db b now
    cases hfind : findUniqueByEmail db b.email with
    | none => simp [login, hfind, Body.allKeys]
    | some u =>
        cases hc : bcryptCompare b.password u.password <;>
          simp [login, hfind, hc, Body.allKeys]
  · intro u
    simp [check, Body.allKeys]
  · intro env db now c u hmw
    cases c with
    | none => simp [authMiddleware] at hmw
    | some t =>
        cases hv : jwtVerify t env.jwtSecret now with
        | none => simp [authMiddleware, hv] at hmw
        | some d =>
            cases hf : findUniqueById db d.id with
            | none =>
                simp [authMiddleware, hv, findUniqueByIdSelect, hf] at hmw
            | some v =>
                refine ⟨v, List.mem_of_find?_eq_some hf, ?_⟩
                simp [authMiddleware, hv, findUniqueByIdSelect, hf] at hmw
                exact hmw.symm

/-- C6 witness: the identity the middleware attaches for a valid token of
user 1 is the projection of a record in the store. -/
theorem no_hashed_secret_in_responses_witness :
    ∃ v, v ∈ dbA ∧ projectUser userA = projectUser v :=
  no_hashed_secret_in_responses.2.2.2.2 envA dbA 0
    (some (jwtSign 1 envA.jwtSecret 0)) (projectUser userA) rfl

/-- C7: the session cookie set by register and login is named "jwt" with
attributes httpOnly, sameSite=strict, secure = (NODE_ENV ≠ "development"),
and maxAge of exactly 7 days in milliseconds; logout clears a cookie of
the same name with exactly the same httpOnly/sameSite/secure flags as at
set-time. -/
theorem session_cookie_contract :
    (∀ env db b newId now, findUniqueByEmail db b.email = none →
      (register env db b newId now).fst.setCookie =
        some { name := "jwt", value := jwtSign newId env.jwtSecret now,
               httpOnly := true, sameSite := "strict",
               secure := env.nodeEnv != "development",
               maxAge := sevenDaysMs }) ∧
    (∀ env db b now u, findUniqueByEmail db b.email = some u →
      bcryptCompare b.password u.password = true →
      (login env db b now).fst.setCookie =
        some { name := "jwt", value := jwtSign u.id env.jwtSecret now,
               httpOnly := true, sameSite := "strict",
               secure := env.nodeEnv != "development",
               maxAge := sevenDaysMs }) ∧
    (∀ env c, (logout env c).clearCookie =
      some { name := "jwt", httpOnly := true, sameSite := "strict",
             secure := env.nodeEnv != "development" }) ∧
    (∀ env db b newId now c, findUniqueByEmail db b.email = none →
      ((register env db b newId now).fst.setCookie).map
          (fun sc => (sc.name, sc.httpOnly, sc.sameSite, sc.secure)) =
        ((logout env c).clearCookie).map
          (fun cc => (cc.name, cc.httpOnly, cc.sameSite, cc.secure))) ∧
    (∀ env : Env, env.nodeEnv ≠ "development" →
      (env.nodeEnv != "development") = true) ∧
    (∀ env : Env, env.nodeEnv = "development" →
      (env.nodeEnv != "development") = false) ∧
    sevenDaysMs = 1000 * 60 * 60 * 24 * 7 := by
  refine ⟨?_, ?_, fun _ _ => rfl, ?_, ?_, ?_, rfl⟩
  · intro env db b newId now h
    simp [register, h]
  · intro env db b now u h hc
    simp [login, h, hc]
  · intro env db b newId now c h
    simp [register, h, logout]
  · intro env h
    simp [h]
  · intro env h
    simp [h]

/-- C7 witness: the cookie set by a successful registration and the cookie
cleared by logout share name and flags. -/
theorem session_cookie_contract_witness :
    ((register envA [] regBodyA 1 0).fst.setCookie).map
        (fun sc => (sc.name, sc.httpOnly, sc.sameSite, sc.secure)) =
      ((logout envA none).clearCookie).map
        (fun cc => (cc.name, cc.httpOnly, cc.sameSite, cc.secure)) :=
  session_cookie_contract.2.2.2.1 envA [] regBodyA 1 0 none rfl

/-- C8: a successful registration appends exactly one record whose stored
secret is the bcrypt hash of the submitted plaintext at cost 12 and whose
role is USER; every record of the post-registration store is either an old
record or that freshly created one. -/
theorem register_hash_and_role (env : Env) (db : Db) (b : RegisterBody)
    (newId now : Nat) (h : findUniqueByEmail db b.email = none) :
    (register env db b newId now).snd =
      db ++ [{ id := newId, email := b.email,
               password := bcryptHash b.password 12, name := b.name,
               role := .USER, image := none }] ∧
    ∀ u ∈ (register env db b newId now).snd, u ∈ db ∨
      (u.password = bcryptHash b.password 12 ∧ u.role = .USER) := by
  have hsnd : (register env db b newId now).snd =
      db ++ [{ id := newId, email := b.email,
               password := bcryptHash b.password 12, name := b.name,
               role := .USER, image := none }] := by
    simp [register, h]
  refine ⟨hsnd, ?_⟩
  intro u hu
  rw [hsnd] at hu
  rcases List.mem_append.mp hu with hold | hnew
  · exact Or.inl hold
  · right
    rcases List.mem_singleton.mp hnew with rfl
    exact ⟨rfl, rfl⟩

/-- C8 witness: registering "a@x.com" with plaintext "pw1" stores the
cost-12 bcrypt hash of "pw1" and role USER. -/
theorem register_hash_and_role_witness :
    (register envA [] regBodyA 1 0).snd =
      [] ++ [{ id := 1, email := regBodyA.email,
               password := bcryptHash regBodyA.password 12,
               name := regBodyA.name, role := .USER, image := none }] ∧
    ∀ u ∈ (register envA [] regBodyA 1 0).snd, u ∈ ([] : Db) ∨
      (u.password = bcryptHash regBodyA.password 12 ∧
        u.role = .USER) :=
  register_hash_and_role envA [] regBodyA 1 0 rfl

/-- C9: logout always succeeds: for every request, with or without a
session cookie, it answers 200 with the success payload; it never reads
the session at all, so calling it twice (or with no active session) gives
the identical successful response. -/
theorem logout_always_succeeds :
    (∀ env c, (logout env c).status = 200 ∧
      (logout env c).body =
        .successMsg true "User logged out successfully") ∧
    (∀ env c c', logout env c = logout env c') := by
  exact ⟨fun env c => ⟨rfl, rfl⟩, fun env c c' => rfl⟩

/-- C10: every error response of register or login performs no session
side effect: a register response with status other than 201 sets no
cookie and leaves the store unchanged, a login response with status other
than 200 sets no cookie, and login leaves the store unchanged on every
path. -/
theorem failed_auth_no_side_effects :
    (∀ env db b newId now, (register env db b newId now).fst.status ≠ 201 →
      (register env db b newId now).fst.setCookie = none ∧
      (register env db b newId now).snd = db) ∧
    (∀ env db b now, (login env db b now).fst.status ≠ 200 →
      (login env db b now).fst.setCookie = none) ∧
    (∀ env db b now, (login env db b now).snd = db) := by
  refine ⟨?_, ?_, ?_⟩
  · intro env db b newId now hstat
    cases hfind : findUniqueByEmail db b.email with
    | none => simp [register, hfind] at hstat
    | some u => simp [register, hfind]
  · intro env db b now hstat
    cases hfind : findUniqueByEmail db b.email with
    | none => simp [login, hfind]
    | some u =>
        cases hc : bcryptCompare b.password u.password with
        | true => simp [login, hfind, hc] at hstat
        | false => simp [login, hfind, hc]
  · intro env db b now
    cases hfind : findUniqueByEmail db b.email with
    | none => simp [login, hfind]
    | some u =>
        cases hc : bcryptCompare b.password u.password <;>
          simp [login, hfind, hc]

/-- C10 witness: the conflicting registration of an existing email sets no
cookie and leaves the store unchanged. -/
theorem failed_auth_no_side_effects_witness :
    (register envA dbA regBodyA 1 0).fst.setCookie = none ∧
    (register envA dbA regBodyA 1 0).snd = dbA :=
  failed_auth_no_side_effects.1 envA dbA regBodyA 1 0 (by decide)

end DesiAuth
